import Mathlib

/-!
Shallow embedding of the documentation tool orchestration in
cli/tools/doc.rs (the print_docs entry point, the StubDocLoader and
DocLoader implementations of the Loader trait, and the DocResolver
implementation of the Resolver trait).

External collaborators that live outside this file of the repository
(the module graph builder, the doc parser, the file fetcher, the import
map) are modeled as oracle functions collected in an Env structure.
Effects performed by the orchestration (cache insertion, graph building,
parsing calls, stderr output, stdout output, module fetches) are recorded
as an explicit list of Event values, so that ordering and absence of
effects can be stated as theorems.
-/

namespace DenoDoc

/-- Models AnyError: an arbitrary error carried as its display string. -/
abbrev AnyError := String

/-- Canonical absolute module specifier (a URL in the source); two
specifiers are equal iff their canonical string forms are equal. -/
structure ModuleSpecifier where
  as_str : String
deriving DecidableEq, Repr

/-- Models deno_ast MediaType: classifies the content of a module. -/
inductive MediaType where
  | TypeScript
  | Jsx
  | JavaScript
  | Tsx
  | Dts
  | Json
  | Wasm
  | TsBuildInfo
  | SourceMap
  | Unknown
deriving DecidableEq, Repr

/-- Kinds of documented symbols, as in deno_doc DocNodeKind. -/
inductive DocNodeKind where
  | Function
  | Variable
  | Class
  | Enum
  | Interface
  | TypeAlias
  | Namespace
  | Import
deriving DecidableEq, Repr

/-- One documented symbol. The orchestration code reads only the kind
field; the remaining fields of the source DocNode (location, doc
comment, declaration payload, child nodes of container kinds) are
consulted only by the external doc parser, search and printer
collaborators, and are summarized here by the name field and an opaque
payload string carrying the rest of the serialized node. -/
structure DocNode where
  name : String
  kind : DocNodeKind
  payload : String
deriving DecidableEq, Repr

/-- Models deno_runtime Permissions (the permission set consulted by the
file fetcher). -/
structure Permissions where
  read : Bool
  write : Bool
  net : Bool
  env : Bool
  run : Bool
  plugin : Bool
  hrtime : Bool
deriving DecidableEq, Repr

/-- Models Permissions::allow_all(): every permission granted. -/
def Permissions.allow_all : Permissions :=
  ⟨true, true, true, true, true, true, true⟩

/-- The CLI flags consumed by print_docs (only the unstable flag is read
directly; the rest is consumed by collaborators). -/
structure Flags where
  unstable : Bool
deriving DecidableEq, Repr

/-- Models crate::file_fetcher::File: a fetched or synthesized module
file. -/
structure File where
  local_path : String
  maybe_types : Option String
  media_type : MediaType
  source : String
  specifier : ModuleSpecifier
  maybe_headers : Option (List (String × String))
deriving DecidableEq, Repr

/-- Models deno_graph LoadResponse: a successfully loaded module. -/
structure LoadResponse where
  specifier : ModuleSpecifier
  content : String
  maybe_headers : Option (List (String × String))
deriving DecidableEq, Repr

/-- Import map collaborator, modeled by its resolve behavior: raw
specifier and referrer string to canonical specifier or mapping error. -/
structure ImportMap where
  resolve : String → String → Except AnyError ModuleSpecifier

/-- Models the ProgramState: the import map loaded from flags, and the
file fetcher (modeled by its fetch behavior). -/
structure ProgramState where
  maybe_import_map : Option ImportMap
  fetch : ModuleSpecifier → Permissions → Except AnyError File

/-- Which Loader implementation a graph build used. -/
inductive LoaderKind where
  | stub
  | fetching
deriving DecidableEq, Repr

/-- The module graph as far as the orchestration observes it: the root
specifier it was built from, the loader used, and whether a resolver was
supplied. The contents of the graph are consulted only by the doc parser
oracles. -/
structure Graph where
  root : ModuleSpecifier
  loader : LoaderKind
  hasResolver : Bool
deriving DecidableEq, Repr

/-- Observable effects performed by the orchestration, in order. -/
inductive Event where
  | insertCached (f : File)
  | createGraph (g : Graph)
  | parseWithReexports (root : ModuleSpecifier)
  | parseSource (s : ModuleSpecifier) (mt : MediaType) (src : String)
  | eprintln (msg : String)
  | writeJson (nodes : List DocNode)
  | writeText (text : String)
  | fetch (s : ModuleSpecifier) (p : Permissions)
deriving DecidableEq, Repr

/-- Whether an event emits document output (JSON or text) on stdout. -/
def Event.isOutput : Event → Bool
  | .writeJson _ => true
  | .writeText _ => true
  | _ => false

/-- How an invocation of print_docs ends: normal return, an error
returned to the caller, process exit with a code, or a panic from an
unwrap. -/
inductive Outcome where
  | ok
  | err (e : AnyError)
  | exited (code : Nat)
  | panicked
deriving DecidableEq, Repr

/-- Models StubDocLoader: the unit struct implementing Loader. -/
structure StubDocLoader

/-- Models StubDocLoader::load: immediately ready with Ok(None), that is
a not-found response, for every specifier; the empty event list records
that no I/O is performed. -/
def StubDocLoader.load (_l : StubDocLoader) (specifier : ModuleSpecifier)
    (_is_dynamic : Bool) :
    List Event × (ModuleSpecifier × Except AnyError (Option LoadResponse)) :=
  ([], (specifier, Except.ok none))

/-- Models DocResolver: holds the optional import map. -/
structure DocResolver where
  import_map : Option ImportMap

/-- Models DocResolver::resolve. The resolveImport argument is the
external deno_core::resolve_import collaborator (standard specifier
resolution of the raw specifier against the referrer). -/
def DocResolver.resolve
    (resolveImport : String → String → Except AnyError ModuleSpecifier)
    (r : DocResolver) (specifier : String) (referrer : ModuleSpecifier) :
    Except AnyError ModuleSpecifier :=
  match r.import_map with
  | some import_map => import_map.resolve specifier referrer.as_str
  | none => resolveImport specifier referrer.as_str

/-- Models DocLoader: holds the program state whose file fetcher it
delegates to. -/
structure DocLoader where
  program_state : ProgramState

/-- Models DocLoader::load: fetch the specifier through the file fetcher
with Permissions::allow_all(), mapping a fetched File to a LoadResponse.
The event list records the fetch that is performed. -/
def DocLoader.load (l : DocLoader) (specifier : ModuleSpecifier)
    (_is_dynamic : Bool) :
    List Event × (ModuleSpecifier × Except AnyError (Option LoadResponse)) :=
  let result := (l.program_state.fetch specifier Permissions.allow_all).map
    (fun file => some
      { specifier := specifier
        content := file.source
        maybe_headers := file.maybe_headers })
  ([Event.fetch specifier Permissions.allow_all], (specifier, result))

/-- Oracles for the external collaborators called by print_docs. -/
structure Env where
  buildProgramState : Flags → Except AnyError ProgramState
  resolveUrlOrPath : String → Except AnyError ModuleSpecifier
  getTypes : Bool → String
  parseSource : Graph → Bool → ModuleSpecifier → MediaType → String →
    Except AnyError (List DocNode)
  parseWithReexports : Graph → Bool → ModuleSpecifier →
    Except AnyError (List DocNode)
  findNodesByNameRecursively : List DocNode → String → List DocNode
  printNodes : List DocNode → Bool → Bool → String
  useColor : Bool

/-- The built-in root specifier, ModuleSpecifier::parse of the literal
string deno://lib.deno.d.ts. -/
def builtinSpecifier : ModuleSpecifier := ⟨"deno://lib.deno.d.ts"⟩

/-- The relative path of the synthetic root module. -/
def syntheticRootPath : String := "./$deno$doc.ts"

/-- An early termination of print_docs before doc parsing: an error
returned through the question mark operator, or a panic from unwrap. -/
inductive EarlyExit where
  | err (e : AnyError)
  | panicked
deriving DecidableEq, Repr

/-- The first phase of print_docs, up to and including the doc parsing
call: building the program state, selecting the built-in or module
branch, synthesizing and caching the root file in the module branch,
building the graph and invoking the doc parser. Returns the events
performed and the parse result, or an early exit. -/
def docPhase1 (env : Env) (flags : Flags) (source_file : Option String)
    (priv : Bool) :
    Except EarlyExit (List Event × Except AnyError (List DocNode)) :=
  match env.buildProgramState flags with
  | .error e => .error (.err e)
  | .ok _program_state =>
    let source_file := source_file.getD "--builtin"
    if source_file = "--builtin" then
      let graph : Graph := ⟨builtinSpecifier, LoaderKind.stub, false⟩
      .ok ([Event.createGraph graph,
            Event.parseSource builtinSpecifier MediaType.Dts
              (env.getTypes flags.unstable)],
           env.parseSource graph priv builtinSpecifier MediaType.Dts
             (env.getTypes flags.unstable))
    else
      match env.resolveUrlOrPath source_file with
      | .error e => .error (.err e)
      | .ok module_specifier =>
        match env.resolveUrlOrPath syntheticRootPath with
        | .error _ => .error .panicked
        | .ok root_specifier =>
          let root : File :=
            { local_path := syntheticRootPath
              maybe_types := none
              media_type := MediaType.TypeScript
              source := "export * from \"" ++ module_specifier.as_str ++ "\";"
              specifier := root_specifier
              maybe_headers := none }
          let graph : Graph := ⟨root_specifier, LoaderKind.fetching, true⟩
          .ok ([Event.insertCached root,
                Event.createGraph graph,
                Event.parseWithReexports root_specifier],
               env.parseWithReexports graph priv root_specifier)

/-- The text rendering tail of print_docs: optional name filtering over
the already pruned node list, failing when the filter matches nothing,
then rendering through the DocPrinter collaborator. -/
def textOutput (env : Env) (maybe_filter : Option String) (priv : Bool)
    (doc_nodes : List DocNode) : List Event × Outcome :=
  match maybe_filter with
  | some filter =>
    let nodes := env.findNodesByNameRecursively doc_nodes filter
    if nodes.isEmpty then
      ([Event.eprintln ("Node " ++ filter ++ " was not found!")],
       Outcome.exited 1)
    else
      ([Event.writeText (env.printNodes nodes env.useColor priv)],
       Outcome.ok)
  | none =>
    ([Event.writeText (env.printNodes doc_nodes env.useColor priv)],
     Outcome.ok)

/-- The tail of print_docs from the parse result on: abort on a parse
error, otherwise JSON serialization of the full node list, or Import
pruning followed by the text path. -/
def finishDocs (env : Env) (json : Bool) (maybe_filter : Option String)
    (priv : Bool) (parse_result : Except AnyError (List DocNode)) :
    List Event × Outcome :=
  match parse_result with
  | .error e => ([Event.eprintln e], Outcome.exited 1)
  | .ok doc_nodes =>
    if json then
      ([Event.writeJson doc_nodes], Outcome.ok)
    else
      textOutput env maybe_filter priv
        (doc_nodes.filter (fun n => n.kind != DocNodeKind.Import))

/-- Models print_docs: the whole orchestration, returning the event
trace and the outcome. -/
def print_docs (env : Env) (flags : Flags) (source_file : Option String)
    (json : Bool) (maybe_filter : Option String) (priv : Bool) :
    List Event × Outcome :=
  match docPhase1 env flags source_file priv with
  | .error (.err e) => ([], Outcome.err e)
  | .error .panicked => ([], Outcome.panicked)
  | .ok (evs, parse_result) =>
    let r := finishDocs env json maybe_filter priv parse_result
    (evs ++ r.1, r.2)

/-- Helper: the events recorded by the first phase (cache insertion,
graph building, parser invocation) are never stdout document output. -/
theorem docPhase1_no_output (env : Env) (flags : Flags)
    (source_file : Option String) (priv : Bool) (evs : List Event)
    (pr : Except AnyError (List DocNode))
    (h : docPhase1 env flags source_file priv = .ok (evs, pr)) :
    ∀ ev ∈ evs, ev.isOutput = false := by
  unfold docPhase1 at h
  cases hps : env.buildProgramState flags with
  | error e => rw [hps] at h; exact absurd h (by simp)
  | ok ps =>
    rw [hps] at h
    by_cases hb : source_file.getD "--builtin" = "--builtin"
    · rw [if_pos hb] at h
      simp only [Except.ok.injEq, Prod.mk.injEq] at h
      obtain ⟨h1, _⟩ := h
      subst h1
      intro ev hev
      simp only [List.mem_cons, List.not_mem_nil, or_false] at hev
      rcases hev with rfl | rfl <;> rfl
    · rw [if_neg hb] at h
      cases hm : env.resolveUrlOrPath (source_file.getD "--builtin") with
      | error e => rw [hm] at h; exact absurd h (by simp)
      | ok m =>
        rw [hm] at h
        cases hr : env.resolveUrlOrPath syntheticRootPath with
        | error e => rw [hr] at h; exact absurd h (by simp)
        | ok root =>
          rw [hr] at h
          simp only [Except.ok.injEq, Prod.mk.injEq] at h
          obtain ⟨h1, _⟩ := h
          subst h1
          intro ev hev
          simp only [List.mem_cons, List.not_mem_nil, or_false] at hev
          rcases hev with rfl | rfl | rfl <;> rfl

/-- C1: for an entry input that is present and not the sentinel, the run
synthesizes a root file at the resolved synthetic path whose entire
source is exactly one wildcard re-export of the canonical target
specifier, inserts it into the file fetcher cache, then builds the graph
from the synthetic root with the fetching loader and a resolver, then
parses in re-export mode from that root. -/
theorem print_docs_synthetic_root (env : Env) (flags : Flags) (s : String)
    (json : Bool) (maybe_filter : Option String) (priv : Bool)
    (ps : ProgramState) (m root : ModuleSpecifier)
    (hps : env.buildProgramState flags = .ok ps)
    (hs : s ≠ "--builtin")
    (hm : env.resolveUrlOrPath s = .ok m)
    (hr : env.resolveUrlOrPath syntheticRootPath = .ok root) :
    (print_docs env flags (some s) json maybe_filter priv).1.take 3 =
      [Event.insertCached
        { local_path := syntheticRootPath
          maybe_types := none
          media_type := MediaType.TypeScript
          source := "export * from \"" ++ m.as_str ++ "\";"
          specifier := root
          maybe_headers := none },
       Event.createGraph ⟨root, LoaderKind.fetching, true⟩,
       Event.parseWithReexports root] := by
  simp [print_docs, docPhase1, hps, hs, hm, hr]

/-- C2: whenever doc parsing returns an error, the run prints the error
to standard error, exits with code 1, and emits no JSON or text output
anywhere in the trace. -/
theorem print_docs_parse_error_aborts (env : Env) (flags : Flags)
    (source_file : Option String) (json : Bool)
    (maybe_filter : Option String) (priv : Bool) (evs : List Event)
    (e : AnyError)
    (h : docPhase1 env flags source_file priv = .ok (evs, .error e)) :
    print_docs env flags source_file json maybe_filter priv
      = (evs ++ [Event.eprintln e], Outcome.exited 1)
    ∧ ∀ ev ∈ (print_docs env flags source_file json maybe_filter priv).1,
        ev.isOutput = false := by
  have h1 : print_docs env flags source_file json maybe_filter priv
      = (evs ++ [Event.eprintln e], Outcome.exited 1) := by
    simp [print_docs, h, finishDocs]
  refine ⟨h1, ?_⟩
  rw [h1]
  intro ev hev
  rw [List.mem_append] at hev
  rcases hev with hev | hev
  · exact docPhase1_no_output env flags source_file priv evs _ h ev hev
  · simp only [List.mem_cons, List.not_mem_nil, or_false] at hev
    subst hev
    rfl

/-- C3: in text mode with a filter, when the recursive name search over
the Import-pruned node list yields zero matches, the run prints a not
found diagnostic naming the filter to standard error, exits with code 1,
and emits no document output. -/
theorem print_docs_filter_not_found (env : Env) (flags : Flags)
    (source_file : Option String) (priv : Bool) (evs : List Event)
    (nodes : List DocNode) (f : String)
    (h : docPhase1 env flags source_file priv = .ok (evs, .ok nodes))
    (hf : env.findNodesByNameRecursively
        (nodes.filter (fun n => n.kind != DocNodeKind.Import)) f = []) :
    print_docs env flags source_file false (some f) priv
      = (evs ++ [Event.eprintln ("Node " ++ f ++ " was not found!")],
         Outcome.exited 1)
    ∧ ∀ ev ∈ (print_docs env flags source_file false (some f) priv).1,
        ev.isOutput = false := by
  have h1 : print_docs env flags source_file false (some f) priv
      = (evs ++ [Event.eprintln ("Node " ++ f ++ " was not found!")],
         Outcome.exited 1) := by
    simp [print_docs, h, finishDocs, textOutput, hf]
  refine ⟨h1, ?_⟩
  rw [h1]
  intro ev hev
  rw [List.mem_append] at hev
  rcases hev with hev | hev
  · exact docPhase1_no_output env flags source_file priv evs _ h ev hev
  · simp only [List.mem_cons, List.not_mem_nil, or_false] at hev
    subst hev
    rfl

/-- C4: on a successful parse, JSON mode writes the full node list
verbatim, Import nodes included; text mode hands the node list to the
filter and printer only after removing every Import-kind node. -/
theorem print_docs_json_verbatim_text_pruned (env : Env) (flags : Flags)
    (source_file : Option String) (maybe_filter : Option String)
    (priv : Bool) (evs : List Event) (nodes : List DocNode)
    (h : docPhase1 env flags source_file priv = .ok (evs, .ok nodes)) :
    print_docs env flags source_file true maybe_filter priv
      = (evs ++ [Event.writeJson nodes], Outcome.ok)
    ∧ print_docs env flags source_file false maybe_filter priv
      = (evs ++ (textOutput env maybe_filter priv
            (nodes.filter (fun n => n.kind != DocNodeKind.Import))).1,
         (textOutput env maybe_filter priv
            (nodes.filter (fun n => n.kind != DocNodeKind.Import))).2) := by
  constructor <;> simp [print_docs, h, finishDocs]

/-- C5: when the entry input is absent or the sentinel, the graph is
built from the built-in specifier with the stub loader and no resolver,
and the built-in source text from get_types is parsed directly with the
declaration-only media type. -/
theorem print_docs_builtin_direct (env : Env) (flags : Flags)
    (source_file : Option String) (json : Bool)
    (maybe_filter : Option String) (priv : Bool) (ps : ProgramState)
    (hps : env.buildProgramState flags = .ok ps)
    (hsf : source_file = none ∨ source_file = some "--builtin") :
    (print_docs env flags source_file json maybe_filter priv).1.take 2 =
      [Event.createGraph ⟨builtinSpecifier, LoaderKind.stub, false⟩,
       Event.parseSource builtinSpecifier MediaType.Dts
         (env.getTypes flags.unstable)] := by
  rcases hsf with rfl | rfl <;> simp [print_docs, docPhase1, hps]

/-- C6: DocResolver resolution goes through the import map first when
one is configured, returning its result unchanged (so a mapping failure
propagates), and otherwise applies standard import resolution of the raw
specifier against the referrer. -/
theorem DocResolver.resolve_import_map_first
    (resolveImport : String → String → Except AnyError ModuleSpecifier)
    (specifier : String) (referrer : ModuleSpecifier) :
    (∀ im : ImportMap,
      DocResolver.resolve resolveImport ⟨some im⟩ specifier referrer
        = im.resolve specifier referrer.as_str)
    ∧ DocResolver.resolve resolveImport ⟨none⟩ specifier referrer
        = resolveImport specifier referrer.as_str :=
  ⟨fun _ => rfl, rfl⟩

/-- C7: a present, non-sentinel entry input that fails to resolve into a
canonical specifier makes the run return that error with an empty event
trace: no cache insertion, no graph build, no parse, no fetch. -/
theorem print_docs_invalid_root_fail_fast (env : Env) (flags : Flags)
    (s : String) (json : Bool) (maybe_filter : Option String)
    (priv : Bool) (ps : ProgramState) (e : AnyError)
    (hps : env.buildProgramState flags = .ok ps)
    (hs : s ≠ "--builtin")
    (he : env.resolveUrlOrPath s = .error e) :
    print_docs env flags (some s) json maybe_filter priv
      = ([], Outcome.err e) := by
  simp [print_docs, docPhase1, hps, hs, he]

/-- C8: the stub loader returns an immediately ready Ok with no load
response for every specifier, the built-in root included, and performs
no I/O (its event trace is empty). -/
theorem StubDocLoader.load_not_found (l : StubDocLoader)
    (specifier : ModuleSpecifier) (is_dynamic : Bool) :
    StubDocLoader.load l specifier is_dynamic
      = ([], (specifier, Except.ok none))
    ∧ StubDocLoader.load l builtinSpecifier is_dynamic
      = ([], (builtinSpecifier, Except.ok none)) :=
  ⟨rfl, rfl⟩

/-- C9: in JSON mode the filter argument is dead: two invocations that
differ only in the filter produce identical traces and outcomes. -/
theorem print_docs_json_ignores_filter (env : Env) (flags : Flags)
    (source_file : Option String) (f1 f2 : Option String) (priv : Bool) :
    print_docs env flags source_file true f1 priv
      = print_docs env flags source_file true f2 priv := by
  unfold print_docs
  cases docPhase1 env flags source_file priv with
  | error e => cases e <;> rfl
  | ok pr =>
    obtain ⟨evs, parse_result⟩ := pr
    cases parse_result <;> simp [finishDocs]

/-- C10: every load performed by the fetching loader consists of exactly
one fetch through the file fetcher with the allow-all permission set,
whatever program state (and hence whatever CLI flags) the loader holds. -/
theorem DocLoader.load_allow_all (l : DocLoader)
    (specifier : ModuleSpecifier) (is_dynamic : Bool) :
    (DocLoader.load l specifier is_dynamic).1
      = [Event.fetch specifier Permissions.allow_all] :=
  rfl

/-- A concrete program state for evaluating the theorems. -/
def psW : ProgramState :=
  { maybe_import_map := none
    fetch := fun sp _ => Except.ok
      { local_path := ""
        maybe_types := none
        media_type := MediaType.TypeScript
        source := ""
        specifier := sp
        maybe_headers := none } }

/-- A concrete function node. -/
def nodeFn : DocNode := ⟨"greet", DocNodeKind.Function, ""⟩

/-- A concrete Import-kind node. -/
def nodeImp : DocNode := ⟨"dep", DocNodeKind.Import, ""⟩

/-- A concrete environment whose collaborators all succeed. -/
def envW : Env :=
  { buildProgramState := fun _ => Except.ok psW
    resolveUrlOrPath := fun s =>
      if s = "bad path" then Except.error "invalid URL" else Except.ok ⟨s⟩
    getTypes := fun _ => "declare const deno: unknown;"
    parseSource := fun _ _ _ _ _ => Except.ok [nodeFn]
    parseWithReexports := fun _ _ _ => Except.ok [nodeFn, nodeImp]
    findNodesByNameRecursively := fun nodes f =>
      nodes.filter (fun n => n.name == f)
    printNodes := fun nodes _ _ => toString nodes.length
    useColor := false }

/-- A concrete environment whose doc parsing fails. -/
def envE : Env :=
  { envW with
    parseWithReexports := fun _ _ _ =>
      Except.error "Unable to load specifier"
    parseSource := fun _ _ _ _ _ => Except.error "builtin parse failed" }

/-- The synthetic root file produced for the target file:///a.ts. -/
def rootFileW : File :=
  { local_path := syntheticRootPath
    maybe_types := none
    media_type := MediaType.TypeScript
    source := "export * from \"file:///a.ts\";"
    specifier := ⟨syntheticRootPath⟩
    maybe_headers := none }

/-- The first-phase events of a module-branch run on file:///a.ts. -/
def evsModuleW : List Event :=
  [Event.insertCached rootFileW,
   Event.createGraph ⟨⟨syntheticRootPath⟩, LoaderKind.fetching, true⟩,
   Event.parseWithReexports ⟨syntheticRootPath⟩]

/-- Witness for C1 at the concrete environment and target file:///a.ts. -/
theorem print_docs_synthetic_root_witness :
    (print_docs envW ⟨false⟩ (some "file:///a.ts") false none false).1.take 3 =
      [Event.insertCached rootFileW,
       Event.createGraph ⟨⟨syntheticRootPath⟩, LoaderKind.fetching, true⟩,
       Event.parseWithReexports ⟨syntheticRootPath⟩] :=
  print_docs_synthetic_root envW ⟨false⟩ "file:///a.ts" false none false psW
    ⟨"file:///a.ts"⟩ ⟨syntheticRootPath⟩ rfl (by decide) rfl rfl

/-- Witness for C2 at the concrete failing environment. -/
theorem print_docs_parse_error_aborts_witness :
    (print_docs envE ⟨false⟩ (some "file:///a.ts") false none false
      = (evsModuleW ++ [Event.eprintln "Unable to load specifier"],
         Outcome.exited 1))
    ∧ ∀ ev ∈ (print_docs envE ⟨false⟩ (some "file:///a.ts")
        false none false).1, ev.isOutput = false :=
  print_docs_parse_error_aborts envE ⟨false⟩ (some "file:///a.ts") false
    none false evsModuleW "Unable to load specifier" rfl

/-- Witness for C3 at the concrete environment with a filter that
matches nothing. -/
theorem print_docs_filter_not_found_witness :
    (print_docs envW ⟨false⟩ (some "file:///a.ts") false (some "nope") false
      = (evsModuleW ++ [Event.eprintln "Node nope was not found!"],
         Outcome.exited 1))
    ∧ ∀ ev ∈ (print_docs envW ⟨false⟩ (some "file:///a.ts") false
        (some "nope") false).1, ev.isOutput = false :=
  print_docs_filter_not_found envW ⟨false⟩ (some "file:///a.ts") false
    evsModuleW [nodeFn, nodeImp] "nope" rfl rfl

/-- Witness for C4 at the concrete environment. -/
theorem print_docs_json_verbatim_text_pruned_witness :
    (print_docs envW ⟨false⟩ (some "file:///a.ts") true none false
      = (evsModuleW ++ [Event.writeJson [nodeFn, nodeImp]], Outcome.ok))
    ∧ print_docs envW ⟨false⟩ (some "file:///a.ts") false none false
      = (evsModuleW ++ (textOutput envW none false
            ([nodeFn, nodeImp].filter
              (fun n => n.kind != DocNodeKind.Import))).1,
         (textOutput envW none false
            ([nodeFn, nodeImp].filter
              (fun n => n.kind != DocNodeKind.Import))).2) :=
  print_docs_json_verbatim_text_pruned envW ⟨false⟩ (some "file:///a.ts")
    none false evsModuleW [nodeFn, nodeImp] rfl

/-- Witness for C5 at the concrete environment with an absent entry
input. -/
theorem print_docs_builtin_direct_witness :
    (print_docs envW ⟨true⟩ none true none false).1.take 2 =
      [Event.createGraph ⟨builtinSpecifier, LoaderKind.stub, false⟩,
       Event.parseSource builtinSpecifier MediaType.Dts
         "declare const deno: unknown;"] :=
  print_docs_builtin_direct envW ⟨true⟩ none true none false psW rfl
    (Or.inl rfl)

/-- Witness for C7 at the concrete environment with an unresolvable
entry input. -/
theorem print_docs_invalid_root_fail_fast_witness :
    print_docs envW ⟨false⟩ (some "bad path") false none false
      = ([], Outcome.err "invalid URL") :=
  print_docs_invalid_root_fail_fast envW ⟨false⟩ "bad path" false none
    false psW "invalid URL" rfl (by decide) rfl

end DenoDoc
